import Mathlib

/-!
Shallow embedding of `neon_client/client.py` (kennethreitz/neon-client-python).

The Python module is a thin HTTP client: a transport (`NeonAPI.request`)
adding four mandatory headers and translating non-success statuses into
`NeonClientException`, a lazily-typed resource proxy (`NeonResource`), and
resource classes (`APIKey`, `Project`, `Branch`) built on top.

Modelling conventions:
- JSON values are the inductive `Json`; Python dicts become association
  lists (`List (String × _)`) with first-match lookup and in-place update
  that preserves entry order, matching Python dict semantics (keys are
  unique in a real dict, so first-match lookup agrees with dict lookup).
- The HTTP session (`requests.Session.request`) is an external collaborator,
  modelled as a function `HttpRequest → HttpResponse` returning the final
  response; `r.text` and `r.json()` are the `text` and `jsonBody` fields of
  the response. `raise_for_status` raises exactly for statuses in [400, 600).
- In-place mutation of the caller's headers dict is modelled by returning
  the final value of that mapping in the request outcome.
- The `schema` module (pydantic models) is repository code that is not under
  `src/`; the definitions below that depend on it are modelled from the spec
  and say so in their doc comments.
-/

namespace NeonClient

/-- A generic JSON value, as returned by `r.json()`. -/
inductive Json where
  | null
  | bool (b : Bool)
  | num (n : Int)
  | str (s : String)
  | arr (elems : List Json)
  | obj (fields : List (String × Json))

/-- Python truthiness of a JSON value: `None`, `False`, `0`, `""`, `[]` and
`{}` are falsy, everything else is truthy. -/
def Json.truthy : Json → Bool
  | .null => false
  | .bool b => b
  | .num n => n != 0
  | .str s => s != ""
  | .arr elems => !elems.isEmpty
  | .obj fields => !fields.isEmpty

/-- First-match lookup in an association list (Python dict lookup; dict keys
are unique, so first match is the only match). -/
def lookupField {α : Type} : List (String × α) → String → Option α
  | [], _ => none
  | (k, v) :: rest, key => if k = key then some v else lookupField rest key

/-- Python dict assignment `d[k] = v`: update the existing entry in place
(keeping its position) or append a new entry at the end. -/
def setKey {α : Type} : List (String × α) → String → α → List (String × α)
  | [], k, v => [(k, v)]
  | (k', v') :: rest, k, v =>
      if k' = k then (k, v) :: rest else (k', v') :: setKey rest k v

/-- Source `compact_mapping`: "Compact a mapping by removing None values."
`\x7bk: v for k, v in obj.items() if v is not None\x7d`. -/
def compact_mapping {α : Type} (obj : List (String × Option α)) :
    List (String × Option α) :=
  obj.filter (fun p => p.2.isSome)

/-- The module constant `__VERSION__`. -/
def VERSION : String := "0.1.0"

/-- The module constant `NEON_API_KEY_ENVIRON`. -/
def NEON_API_KEY_ENVIRON : String := "NEON_API_KEY"

/-- The module constant `NEON_API_BASE_URL`. -/
def NEON_API_BASE_URL : String := "https://console.neon.tech/api/v2/"

/-- The exception raised by the transport on an HTTP error status; its single
argument is the message (`NeonClientException(r.text)`). -/
structure NeonClientException where
  message : String

/-- The request handed to `self._session.request(method, url, headers=...,
params=..., json=...)`. Query-parameter values at the two call sites have
Python type `int | None`, embedded as `Option Int`. -/
structure HttpRequest where
  method : String
  url : String
  headers : List (String × String)
  params : List (String × Option Int)
  jsonBody : Option Json

/-- The final response the session returns: its status code, its raw body
text (`r.text`) and its decoded body (`r.json()`). -/
structure HttpResponse where
  status : Nat
  text : String
  jsonBody : Json

/-- The `NeonAPI` client state: `self._api_key` and `self.base_url`
(`self._session` is the external session function, passed separately;
`self.user_agent` is derived below exactly as in `__init__`). -/
structure NeonAPI where
  api_key : String
  base_url : String

/-- The constructor `NeonAPI.__init__(api_key, *, base_url=None)`:
`if not base_url: base_url = NEON_API_BASE_URL` (note Python falsiness:
an empty string also falls back to the default). -/
def NeonAPI.init (api_key : String) (base_url : Option String) : NeonAPI :=
  { api_key := api_key
    base_url :=
      match base_url with
      | none => NEON_API_BASE_URL
      | some s => if s = "" then NEON_API_BASE_URL else s }

/-- The attribute `self.user_agent = f"neon-client/\x7b__VERSION__\x7d"`. -/
def NeonAPI.user_agent (_api : NeonAPI) : String := "neon-client/" ++ VERSION

/-- The header-mutation block of `NeonAPI.request`: starting from the
caller-supplied mapping, the four assignments
`headers["Authorization"] = f"Bearer \x7bself._api_key\x7d"`,
`headers["Accept"] = "application/json"`,
`headers["Content-Type"] = "application/json"`,
`headers["User-Agent"] = self.user_agent` are performed in order. -/
def NeonAPI.buildHeaders (api : NeonAPI)
    (callerHeaders : List (String × String)) : List (String × String) :=
  setKey (setKey (setKey (setKey callerHeaders
    ("Authorization") ("Bearer " ++ api.api_key))
    ("Accept") ("application/json"))
    ("Content-Type") ("application/json"))
    ("User-Agent") api.user_agent

/-- The request value passed to `self._session.request(method,
self.base_url + path, headers=headers, **kwargs)`. -/
def NeonAPI.buildRequest (api : NeonAPI) (method path : String)
    (params : List (String × Option Int)) (jsonBody : Option Json)
    (callerHeaders : List (String × String)) : HttpRequest :=
  { method := method
    url := api.base_url ++ path
    headers := api.buildHeaders callerHeaders
    params := params
    jsonBody := jsonBody }

/-- The status check of `NeonAPI.request`: `r.raise_for_status()` raises
`requests.exceptions.HTTPError` exactly when `400 <= r.status_code < 600`,
in which case the transport raises `NeonClientException(r.text)`; otherwise
the decoded body `r.json()` is returned. -/
def handleResponse (r : HttpResponse) : Except NeonClientException Json :=
  if 400 ≤ r.status ∧ r.status < 600 then .error ⟨r.text⟩ else .ok r.jsonBody

/-- Everything observable about one `NeonAPI.request` call: the request the
session received, the final value of the caller's headers mapping (the same
dict object, mutated in place before the request is sent), and the returned
value or raised exception. -/
structure RequestOutcome where
  issued : HttpRequest
  callerHeaders : List (String × String)
  result : Except NeonClientException Json

/-- Source `NeonAPI.request(method, path, **kwargs)`: mutate the headers
mapping, send the request through the session, check the status, decode. -/
def NeonAPI.request (api : NeonAPI) (session : HttpRequest → HttpResponse)
    (method path : String) (params : List (String × Option Int))
    (jsonBody : Option Json) (callerHeaders : List (String × String)) :
    RequestOutcome :=
  let req := api.buildRequest method path params jsonBody callerHeaders
  { issued := req
    callerHeaders := req.headers
    result := handleResponse (session req) }

/-- Source `NeonAPI.url_join(*args)`: `"/".join(args)`. -/
def NeonAPI.url_join (_api : NeonAPI) (args : List String) : String :=
  String.intercalate "/" args

/-- Source `NeonAPI.from_environ()`:
`cls(os.environ[NEON_API_KEY_ENVIRON])`. Environment lookup on a missing
key raises `KeyError`; no session function is even in scope, so no network
call can be attempted. The environment is a function from variable names to
optional values. -/
def NeonAPI.from_environ (environ : String → Option String) :
    Except Unit NeonAPI :=
  match environ NEON_API_KEY_ENVIRON with
  | none => .error ()
  | some key => .ok (NeonAPI.init key none)

/-- A pydantic data model, embedded by its declared field names. -/
structure DataModel where
  fields : List String

/-- A constructed pydantic model instance: the model plus one value per
declared field. -/
structure TypedView where
  model : DataModel
  values : List (String × Json)

/-- Modelled from the spec: `model_construct(**self._data)` on a `schema`
pydantic model (the `schema` module is not under `src/`). Partial, lenient
construction: declared fields present in the mapping are populated from it,
missing fields are left at the default (`None`), unknown keys are ignored,
and no validation error is possible. -/
def DataModel.model_construct (m : DataModel)
    (data : List (String × Json)) : TypedView :=
  { model := m
    values := m.fields.map (fun f => (f, (lookupField data f).getD .null)) }

/-- Modelled from the spec: `getattr` on the typed view resolves exactly the
declared fields, to their constructed values. -/
def TypedView.getattr (o : TypedView) (name : String) : Option Json :=
  lookupField o.values name

/-- Modelled from the spec: `self.obj[key]` treats the typed view as a
mapping over its fields and indexes it directly (`KeyError`, i.e. `none`,
when absent). -/
def TypedView.getitem (o : TypedView) (key : String) : Option Json :=
  lookupField o.values key

/-- Source `NeonResource.__init__`: stores the client, the raw response
value and the data model verbatim, and initializes the private cache
`self.__cached_obj = None`. -/
structure NeonResource where
  _client : NeonAPI
  _data : Json
  _data_model : DataModel
  cached_obj : Option TypedView

/-- Source property `NeonResource.obj`: `if not self.__cached_obj:` compute
`self._data_model.model_construct(**self._data)` and cache it; return the
cache. A cached pydantic instance is always truthy (`BaseModel` defines
neither `__bool__` nor `__len__`), so the falsiness guard is an is-`None`
check. `**self._data` requires the raw value to be a mapping; a non-mapping
raw value fails (`TypeError`), embedded as `none`. The updated proxy is
returned alongside the result (explicit state passing for the in-place
cache write). -/
def NeonResource.objAccess (r : NeonResource) :
    Option (TypedView × NeonResource) :=
  match r.cached_obj with
  | some o => some (o, r)
  | none =>
    match r._data with
    | .obj fields =>
      let o := r._data_model.model_construct fields
      some (o, { r with cached_obj := some o })
    | _ => none

/-- The shared constructor call of every resource class:
`cls(client=client, obj=x, data_model=m)` runs `NeonResource.__init__`,
storing the three arguments verbatim with an empty cache. -/
def NeonResource.make (client : NeonAPI) (obj : Json)
    (data_model : DataModel) : NeonResource :=
  { _client := client, _data := obj, _data_model := data_model,
    cached_obj := none }

/-- The Python error kinds surfaced by the proxy's lookup paths, all distinct
from the transport's `NeonClientException`. -/
inductive PyError where
  | attributeError
  | keyError
  | typeError

/-- A value produced by attribute lookup on a proxy: one of its own stored
attributes, the typed view itself (the `obj` property), or a field of the
typed view reached through the fallback tier. -/
inductive AttrValue where
  | client (c : NeonAPI)
  | rawData (d : Json)
  | dataModel (m : DataModel)
  | typedObj (o : TypedView)
  | viewField (j : Json)

/-- The attribute names defined on the proxy itself (instance attributes set
in `__init__` plus the `obj` property). -/
def NeonResource.ownNames : List String :=
  [("_client"), ("_data"), ("_data_model"), ("obj")]

/-- Source `NeonResource.__getattribute__`: try normal (own) attribute
lookup first; on `AttributeError` fall through to `getattr(self.obj, name)`.
Accessing `obj` (own tier) or falling through both materialize the typed
view, so the possibly-updated proxy is returned. -/
def NeonResource.getattr (r : NeonResource) (name : String) :
    Except PyError (AttrValue × NeonResource) :=
  if name = "_client" then .ok (.client r._client, r)
  else if name = "_data" then .ok (.rawData r._data, r)
  else if name = "_data_model" then .ok (.dataModel r._data_model, r)
  else if name = "obj" then
    match r.objAccess with
    | some (o, r') => .ok (.typedObj o, r')
    | none => .error .typeError
  else
    match r.objAccess with
    | some (o, r') =>
      match o.getattr name with
      | some j => .ok (.viewField j, r')
      | none => .error .attributeError
    | none => .error .typeError

/-- Source `NeonResource.__getitem__`:
`return getattr(self.obj, key, None) or self.obj[key]` — the typed view's
attribute when present and truthy, otherwise mapping-style indexing of the
typed view, `KeyError` when that misses too. -/
def NeonResource.getitem (r : NeonResource) (key : String) :
    Except PyError (Json × NeonResource) :=
  match r.objAccess with
  | none => .error .typeError
  | some (o, r') =>
    match o.getattr key with
    | some v =>
      if v.truthy then .ok (v, r')
      else
        match o.getitem key with
        | some v2 => .ok (v2, r')
        | none => .error .keyError
    | none =>
      match o.getitem key with
      | some v2 => .ok (v2, r')
      | none => .error .keyError

/-- Modelled from the spec: the `schema` module is not under `src/`. The
response data models are embedded by identity; none of the properties proved
here depend on their declared field lists, so these are left empty. -/
def schema.ApiKeysListResponseItem : DataModel := ⟨[]⟩

/-- Modelled from the spec: see `schema.ApiKeysListResponseItem`. Note the
source binds both `Project.list` and `Branch.list` elements to
`schema.ProjectListItem`. -/
def schema.ProjectListItem : DataModel := ⟨[]⟩

/-- Modelled from the spec: see `schema.ApiKeysListResponseItem`. -/
def schema.BranchResponse : DataModel := ⟨[]⟩

/-- Modelled from the spec: `schema.BranchCreateRequest` (not under `src/`)
is a create-request record with two declared optional fields, `endpoints`
(a list of endpoint options) and `branch`; both default to `None`.
Construction from well-typed arguments validates. Endpoint options and the
branch value are embedded by their JSON dump. -/
structure BranchCreateRequest where
  endpoints : Option (List Json)
  branch : Option Json

/-- Modelled from the spec: `model_dump()` serializes exactly the declared
fields of the validated request object. -/
def BranchCreateRequest.model_dump (o : BranchCreateRequest) : Json :=
  .obj
    [(("endpoints"),
       match o.endpoints with
       | none => .null
       | some xs => .arr xs),
     (("branch"), o.branch.getD .null)]

/-- The body condition of `Branch.create`: Python truthiness of
`obj.endpoints or obj.branch` — `None` and the empty list are falsy, a
non-empty list is truthy, and a pydantic `Branch2` instance is always
truthy. -/
def BranchCreateRequest.hasBody (o : BranchCreateRequest) : Bool :=
  (match o.endpoints with
   | some (_ :: _) => true
   | _ => false) || o.branch.isSome

/-- A failure of a resource operation: a raised `NeonClientException`, or a
Python-level failure while consuming the decoded response. -/
inductive OpError where
  | client (e : NeonClientException)
  | pyFailure (e : PyError)

/-- Everything observable about one list operation: the request the session
received and the returned proxies (or the raised error). -/
structure ListOutcome where
  issued : HttpRequest
  result : Except OpError (List NeonResource)

/-- Source `APIKey.list(client)`: `GET api_keys`, then one proxy per element
of the decoded top-level array (iterating a non-array response fails). -/
def APIKey.list (api : NeonAPI) (session : HttpRequest → HttpResponse) :
    ListOutcome :=
  let out := api.request session ("GET") ("api_keys") [] none []
  { issued := out.issued
    result :=
      match out.result with
      | .error e => .error (.client e)
      | .ok r =>
        match r with
        | .arr xs =>
          .ok (xs.map (fun x =>
            NeonResource.make api x schema.ApiKeysListResponseItem))
        | _ => .error (.pyFailure .typeError) }

/-- Source `Project.list(client, *, shared=False, cursor=None, limit=None)`:
`GET projects` or `GET projects/shared` with the uncompacted params mapping
`\x7b"cursor": cursor, "limit": limit\x7d`, then one proxy per element of
`r["projects"]` (a missing key fails with `KeyError`, a non-mapping
response or non-array value fails). -/
def Project.list (api : NeonAPI) (session : HttpRequest → HttpResponse)
    (shared : Bool) (cursor limit : Option Int) : ListOutcome :=
  let r_path := if shared then ("projects/shared") else ("projects")
  let r_params : List (String × Option Int) :=
    [(("cursor"), cursor), (("limit"), limit)]
  let out := api.request session ("GET") r_path r_params none []
  { issued := out.issued
    result :=
      match out.result with
      | .error e => .error (.client e)
      | .ok r =>
        match r with
        | .obj fields =>
          match lookupField fields ("projects") with
          | some (.arr xs) =>
            .ok (xs.map (fun x =>
              NeonResource.make api x schema.ProjectListItem))
          | some _ => .error (.pyFailure .typeError)
          | none => .error (.pyFailure .keyError)
        | _ => .error (.pyFailure .typeError) }

/-- Source `Branch.list(client, project_id, *, cursor=None, limit=None)`:
`GET` on `"/".join(["projects", project_id, "branches"])` with the
compacted params mapping, then one proxy per element of `r["branches"]`. -/
def Branch.list (api : NeonAPI) (session : HttpRequest → HttpResponse)
    (project_id : String) (cursor limit : Option Int) : ListOutcome :=
  let r_path := String.intercalate "/" [("projects"), project_id, ("branches")]
  let r_params := compact_mapping [(("cursor"), cursor), (("limit"), limit)]
  let out := api.request session ("GET") r_path r_params none []
  { issued := out.issued
    result :=
      match out.result with
      | .error e => .error (.client e)
      | .ok r =>
        match r with
        | .obj fields =>
          match lookupField fields ("branches") with
          | some (.arr xs) =>
            .ok (xs.map (fun x =>
              NeonResource.make api x schema.ProjectListItem))
          | some _ => .error (.pyFailure .typeError)
          | none => .error (.pyFailure .keyError)
        | _ => .error (.pyFailure .typeError) }

/-- Everything observable about one `Branch.create` call. -/
structure CreateOutcome where
  issued : HttpRequest
  result : Except NeonClientException NeonResource

/-- Source `Branch.create(client, project_id, *, endpoints=None,
branch=None, **kwargs)`. `endpoints` and `branch` are keyword-only named
parameters, so `kwargs` never contains those keys and the two `setdefault`
calls always insert them; the embedding models the declared-fields call
(no extra `kwargs`). The validated request object is dumped as the JSON
body only when `obj.endpoints or obj.branch` is truthy; otherwise the POST
carries no body at all. -/
def Branch.create (api : NeonAPI) (session : HttpRequest → HttpResponse)
    (project_id : String) (endpoints : Option (List Json))
    (branch : Option Json) : CreateOutcome :=
  let obj : BranchCreateRequest := { endpoints := endpoints, branch := branch }
  let r_path := api.url_join [("projects"), project_id, ("branches")]
  let out :=
    if obj.hasBody then
      api.request session ("POST") r_path [] (some obj.model_dump) []
    else
      api.request session ("POST") r_path [] none []
  { issued := out.issued
    result := out.result.map (fun r =>
      NeonResource.make api r schema.BranchResponse) }

/-- A concrete session fixture for evaluating the list operations on closed
inputs; like the real server it dispatches on the request URL. -/
def listSession : HttpRequest → HttpResponse := fun req =>
  if req.url = ("B/api_keys") then ⟨200, "", .arr [.num 10, .num 11]⟩
  else if req.url = ("B/projects") then
    ⟨200, "", .obj [(("projects"), .arr [.num 20])]⟩
  else ⟨200, "", .obj [(("branches"), .arr [.num 30, .num 31])]⟩

/-! ## Helper lemmas (shared) -/

/-- Dict assignment followed by lookup of the same key yields the assigned
value. -/
theorem lookupField_setKey_self {α : Type} (l : List (String × α))
    (k : String) (v : α) : lookupField (setKey l k v) k = some v := by
  induction l with
  | nil => simp [setKey, lookupField]
  | cons hd tl ih =>
    obtain ⟨k', v'⟩ := hd
    by_cases h : k' = k
    · subst h
      simp [setKey, lookupField]
    · simp [setKey, h, lookupField, ih]

/-- Dict assignment leaves lookups of every other key unchanged. -/
theorem lookupField_setKey_other {α : Type} (l : List (String × α))
    (k k' : String) (v : α) (h : k' ≠ k) :
    lookupField (setKey l k v) k' = lookupField l k' := by
  induction l with
  | nil => simp [setKey, lookupField, Ne.symm h]
  | cons hd tl ih =>
    obtain ⟨k'', v''⟩ := hd
    by_cases hk : k'' = k
    · subst hk
      simp [setKey, lookupField, Ne.symm h]
    · by_cases hk' : k'' = k'
      · subst hk'
        simp [setKey, hk, lookupField]
      · simp [setKey, hk, lookupField, hk', ih]

/-- Lookups on the merged header mapping: the four mandatory headers have
their mandated values, everything else is as supplied by the caller. -/
theorem buildHeaders_lookup (api : NeonAPI)
    (callerHeaders : List (String × String)) (name : String)
    (h1 : name ≠ "Authorization") (h2 : name ≠ "Accept")
    (h3 : name ≠ "Content-Type") (h4 : name ≠ "User-Agent") :
    lookupField (api.buildHeaders callerHeaders) ("Authorization")
      = some ("Bearer " ++ api.api_key) ∧
    lookupField (api.buildHeaders callerHeaders) ("Accept")
      = some ("application/json") ∧
    lookupField (api.buildHeaders callerHeaders) ("Content-Type")
      = some ("application/json") ∧
    lookupField (api.buildHeaders callerHeaders) ("User-Agent")
      = some ("neon-client/" ++ VERSION) ∧
    lookupField (api.buildHeaders callerHeaders) name
      = lookupField callerHeaders name := by
  unfold NeonAPI.buildHeaders
  refine ⟨?_, ?_, ?_, ?_, ?_⟩
  · rw [lookupField_setKey_other _ _ _ _ (by decide),
      lookupField_setKey_other _ _ _ _ (by decide),
      lookupField_setKey_other _ _ _ _ (by decide),
      lookupField_setKey_self]
  · rw [lookupField_setKey_other _ _ _ _ (by decide),
      lookupField_setKey_other _ _ _ _ (by decide),
      lookupField_setKey_self]
  · rw [lookupField_setKey_other _ _ _ _ (by decide),
      lookupField_setKey_self]
  · rw [lookupField_setKey_self]
    rfl
  · rw [lookupField_setKey_other _ _ _ _ h4,
      lookupField_setKey_other _ _ _ _ h3,
      lookupField_setKey_other _ _ _ _ h2,
      lookupField_setKey_other _ _ _ _ h1]

/-! ## Claims -/

/-- C1 counterexample: the claim says every non-success (non-2xx) status
raises `NeonClientException`, but `raise_for_status` only raises for
statuses in [400, 600): a 304 response is not a 2xx success, yet
`NeonAPI.request` raises nothing and returns the decoded body. -/
theorem c1_counterexample :
    ¬(200 ≤ 304 ∧ 304 < 300) ∧
    (NeonAPI.request ⟨"K", "B/"⟩ (fun _ => ⟨304, "redirected", .null⟩)
        ("GET") ("x") [] none []).result = .ok .null := by
  constructor
  · omega
  · rfl

/-- C1 (amended): for every call to `NeonAPI.request`, if the response
status is an HTTP error status (4xx or 5xx), the call raises
`NeonClientException` whose message equals the raw response body text
exactly — a single attempt, no retry, no other error kind; for every other
status (all 2xx successes included) the call returns the response body as
a decoded generic JSON value. -/
theorem c1_request_status_handling (api : NeonAPI)
    (session : HttpRequest → HttpResponse) (method path : String)
    (params : List (String × Option Int)) (jsonBody : Option Json)
    (callerHeaders : List (String × String)) :
    (400 ≤ (session (api.buildRequest method path params jsonBody
          callerHeaders)).status ∧
        (session (api.buildRequest method path params jsonBody
          callerHeaders)).status < 600 →
      (api.request session method path params jsonBody callerHeaders).result
        = .error ⟨(session (api.buildRequest method path params jsonBody
            callerHeaders)).text⟩) ∧
    (¬(400 ≤ (session (api.buildRequest method path params jsonBody
          callerHeaders)).status ∧
        (session (api.buildRequest method path params jsonBody
          callerHeaders)).status < 600) →
      (api.request session method path params jsonBody callerHeaders).result
        = .ok (session (api.buildRequest method path params jsonBody
            callerHeaders)).jsonBody) := by
  constructor
  · intro h
    simp [NeonAPI.request, handleResponse, h]
  · intro h
    simp [NeonAPI.request, handleResponse, h]

/-- C1 witness: a 404 response with body text `\x7b"message":"not found"\x7d`
makes the call raise with exactly that message. -/
theorem c1_witness :
    (400 ≤ (404 : Nat) ∧ (404 : Nat) < 600) ∧
    (NeonAPI.request ⟨"K", "B/"⟩
        (fun _ => ⟨404, "\x7b\"message\":\"not found\"\x7d", .null⟩)
        ("GET") ("x") [] none []).result
      = .error ⟨"\x7b\"message\":\"not found\"\x7d"⟩ :=
  ⟨by omega,
   (c1_request_status_handling ⟨"K", "B/"⟩
      (fun _ => ⟨404, "\x7b\"message\":\"not found\"\x7d", .null⟩)
      ("GET") ("x") [] none []).1 (by decide)⟩

/-- C2: every outgoing request carries the four mandatory headers with
their correct values — `Authorization: Bearer <api key>`,
`Accept: application/json`, `Content-Type: application/json`,
`User-Agent: neon-client/<version>` — regardless of the caller-supplied
headers mapping, and caller-supplied headers under any other name are
preserved in the outgoing request. -/
theorem c2_mandatory_headers (api : NeonAPI)
    (session : HttpRequest → HttpResponse) (method path : String)
    (params : List (String × Option Int)) (jsonBody : Option Json)
    (callerHeaders : List (String × String)) (name : String)
    (h1 : name ≠ "Authorization") (h2 : name ≠ "Accept")
    (h3 : name ≠ "Content-Type") (h4 : name ≠ "User-Agent") :
    lookupField (api.request session method path params jsonBody
        callerHeaders).issued.headers ("Authorization")
      = some ("Bearer " ++ api.api_key) ∧
    lookupField (api.request session method path params jsonBody
        callerHeaders).issued.headers ("Accept")
      = some ("application/json") ∧
    lookupField (api.request session method path params jsonBody
        callerHeaders).issued.headers ("Content-Type")
      = some ("application/json") ∧
    lookupField (api.request session method path params jsonBody
        callerHeaders).issued.headers ("User-Agent")
      = some ("neon-client/" ++ VERSION) ∧
    lookupField (api.request session method path params jsonBody
        callerHeaders).issued.headers name
      = lookupField callerHeaders name := by
  have h := buildHeaders_lookup api callerHeaders name h1 h2 h3 h4
  simpa [NeonAPI.request, NeonAPI.buildRequest] using h

/-- C2 witness: a caller override of an unrelated header (`X-Extra`) and a
caller attempt at `Accept` both leave the four mandatory headers mandated,
and the unrelated header survives. -/
theorem c2_witness :
    lookupField (NeonAPI.request ⟨"sekret", "B/"⟩
        (fun _ => ⟨200, "", .null⟩) ("GET") ("p") [] none
        [(("Accept"), ("text/html")), (("X-Extra"), ("42"))]).issued.headers
      ("Authorization") = some ("Bearer sekret") ∧
    lookupField (NeonAPI.request ⟨"sekret", "B/"⟩
        (fun _ => ⟨200, "", .null⟩) ("GET") ("p") [] none
        [(("Accept"), ("text/html")), (("X-Extra"), ("42"))]).issued.headers
      ("Accept") = some ("application/json") ∧
    lookupField (NeonAPI.request ⟨"sekret", "B/"⟩
        (fun _ => ⟨200, "", .null⟩) ("GET") ("p") [] none
        [(("Accept"), ("text/html")), (("X-Extra"), ("42"))]).issued.headers
      ("Content-Type") = some ("application/json") ∧
    lookupField (NeonAPI.request ⟨"sekret", "B/"⟩
        (fun _ => ⟨200, "", .null⟩) ("GET") ("p") [] none
        [(("Accept"), ("text/html")), (("X-Extra"), ("42"))]).issued.headers
      ("User-Agent") = some ("neon-client/" ++ VERSION) ∧
    lookupField (NeonAPI.request ⟨"sekret", "B/"⟩
        (fun _ => ⟨200, "", .null⟩) ("GET") ("p") [] none
        [(("Accept"), ("text/html")), (("X-Extra"), ("42"))]).issued.headers
      ("X-Extra")
      = lookupField [(("Accept"), ("text/html")), (("X-Extra"), ("42"))]
          ("X-Extra") :=
  c2_mandatory_headers ⟨"sekret", "B/"⟩ (fun _ => ⟨200, "", .null⟩)
    ("GET") ("p") [] none [(("Accept"), ("text/html")), (("X-Extra"), ("42"))]
    ("X-Extra") (by decide) (by decide) (by decide) (by decide)

/-- C10: the caller's headers mapping is mutated in place by
`NeonAPI.request` — before the request is even sent and hence irrespective
of the response (any two sessions leave it identical, so success and raise
agree): afterwards it holds the four mandatory entries, overwriting any
caller-supplied values under those four names, while entries under every
other name are unchanged. -/
theorem c10_caller_headers_mutation (api : NeonAPI)
    (s1 s2 : HttpRequest → HttpResponse) (method path : String)
    (params : List (String × Option Int)) (jsonBody : Option Json)
    (callerHeaders : List (String × String)) (name : String)
    (h1 : name ≠ "Authorization") (h2 : name ≠ "Accept")
    (h3 : name ≠ "Content-Type") (h4 : name ≠ "User-Agent") :
    (api.request s1 method path params jsonBody callerHeaders).callerHeaders
      = (api.request s2 method path params jsonBody
          callerHeaders).callerHeaders ∧
    lookupField (api.request s1 method path params jsonBody
        callerHeaders).callerHeaders ("Authorization")
      = some ("Bearer " ++ api.api_key) ∧
    lookupField (api.request s1 method path params jsonBody
        callerHeaders).callerHeaders ("Accept")
      = some ("application/json") ∧
    lookupField (api.request s1 method path params jsonBody
        callerHeaders).callerHeaders ("Content-Type")
      = some ("application/json") ∧
    lookupField (api.request s1 method path params jsonBody
        callerHeaders).callerHeaders ("User-Agent")
      = some ("neon-client/" ++ VERSION) ∧
    lookupField (api.request s1 method path params jsonBody
        callerHeaders).callerHeaders name
      = lookupField callerHeaders name := by
  have h := buildHeaders_lookup api callerHeaders name h1 h2 h3 h4
  refine ⟨rfl, ?_, ?_, ?_, ?_, ?_⟩
  · simpa [NeonAPI.request, NeonAPI.buildRequest] using h.1
  · simpa [NeonAPI.request, NeonAPI.buildRequest] using h.2.1
  · simpa [NeonAPI.request, NeonAPI.buildRequest] using h.2.2.1
  · simpa [NeonAPI.request, NeonAPI.buildRequest] using h.2.2.2.1
  · simpa [NeonAPI.request, NeonAPI.buildRequest] using h.2.2.2.2

/-- C10 witness: a raising session (status 500) and a succeeding one leave
the caller's mapping in the same mutated state: the caller's own `Accept`
is overwritten, its `X-Trace` entry survives. -/
theorem c10_witness :
    (NeonAPI.request ⟨"k0", "B/"⟩ (fun _ => ⟨500, "boom", .null⟩)
        ("POST") ("p") [] none
        [(("X-Trace"), ("t1")), (("Accept"), ("text/html"))]).callerHeaders
      = (NeonAPI.request ⟨"k0", "B/"⟩ (fun _ => ⟨200, "", .null⟩)
          ("POST") ("p") [] none
          [(("X-Trace"), ("t1")), (("Accept"), ("text/html"))]).callerHeaders ∧
    lookupField (NeonAPI.request ⟨"k0", "B/"⟩ (fun _ => ⟨500, "boom", .null⟩)
        ("POST") ("p") [] none
        [(("X-Trace"), ("t1")), (("Accept"), ("text/html"))]).callerHeaders
      ("Authorization") = some ("Bearer k0") ∧
    lookupField (NeonAPI.request ⟨"k0", "B/"⟩ (fun _ => ⟨500, "boom", .null⟩)
        ("POST") ("p") [] none
        [(("X-Trace"), ("t1")), (("Accept"), ("text/html"))]).callerHeaders
      ("Accept") = some ("application/json") ∧
    lookupField (NeonAPI.request ⟨"k0", "B/"⟩ (fun _ => ⟨500, "boom", .null⟩)
        ("POST") ("p") [] none
        [(("X-Trace"), ("t1")), (("Accept"), ("text/html"))]).callerHeaders
      ("Content-Type") = some ("application/json") ∧
    lookupField (NeonAPI.request ⟨"k0", "B/"⟩ (fun _ => ⟨500, "boom", .null⟩)
        ("POST") ("p") [] none
        [(("X-Trace"), ("t1")), (("Accept"), ("text/html"))]).callerHeaders
      ("User-Agent") = some ("neon-client/" ++ VERSION) ∧
    lookupField (NeonAPI.request ⟨"k0", "B/"⟩ (fun _ => ⟨500, "boom", .null⟩)
        ("POST") ("p") [] none
        [(("X-Trace"), ("t1")), (("Accept"), ("text/html"))]).callerHeaders
      ("X-Trace")
      = lookupField [(("X-Trace"), ("t1")), (("Accept"), ("text/html"))]
          ("X-Trace") :=
  c10_caller_headers_mutation ⟨"k0", "B/"⟩ (fun _ => ⟨500, "boom", .null⟩)
    (fun _ => ⟨200, "", .null⟩) ("POST") ("p") [] none
    [(("X-Trace"), ("t1")), (("Accept"), ("text/html"))]
    ("X-Trace") (by decide) (by decide) (by decide) (by decide)

/-- C9: `NeonAPI.from_environ` reads the single environment variable
`NEON_API_KEY`; when it is unset the call fails (a `KeyError` at the
environment lookup — no session function is even in scope, so no network
call can be attempted), and when it is set the call constructs a client
whose API key equals the variable's value. -/
theorem c9_from_environ (environ : String → Option String) (key : String) :
    (environ NEON_API_KEY_ENVIRON = none →
      NeonAPI.from_environ environ = .error ()) ∧
    (environ NEON_API_KEY_ENVIRON = some key →
      NeonAPI.from_environ environ = .ok (NeonAPI.init key none) ∧
        (NeonAPI.init key none).api_key = key) := by
  constructor
  · intro h
    simp [NeonAPI.from_environ, h]
  · intro h
    exact ⟨by simp [NeonAPI.from_environ, h], rfl⟩

/-- C9 witness: an environment holding `NEON_API_KEY=sek-123` yields a
client with exactly that API key (and an unset environment errors, via the
same theorem applied to the empty environment in the first conjunct). -/
theorem c9_witness :
    ((fun _ => (none : Option String)) NEON_API_KEY_ENVIRON = none) ∧
    NeonAPI.from_environ (fun _ => (none : Option String)) = .error () ∧
    ((fun n => if n = NEON_API_KEY_ENVIRON then some ("sek-123") else none)
        NEON_API_KEY_ENVIRON = some ("sek-123")) ∧
    NeonAPI.from_environ
        (fun n => if n = NEON_API_KEY_ENVIRON then some ("sek-123") else none)
      = .ok (NeonAPI.init ("sek-123") none) ∧
    (NeonAPI.init ("sek-123") none).api_key = "sek-123" :=
  ⟨rfl,
   (c9_from_environ (fun _ => none) ("sek-123")).1 rfl,
   by simp,
   ((c9_from_environ
      (fun n => if n = NEON_API_KEY_ENVIRON then some ("sek-123") else none)
      ("sek-123")).2 (by simp)).1,
   ((c9_from_environ
      (fun n => if n = NEON_API_KEY_ENVIRON then some ("sek-123") else none)
      ("sek-123")).2 (by simp)).2⟩

/-- C8: query-parameter compaction is inconsistent between the two list
endpoints. `Branch.list` sends `compact_mapping` of its params mapping, and
`compact_mapping` removes exactly the `None`-valued entries — it is a
sublist (relative order kept), every non-`None` entry (even a falsy value
such as `0`) survives, and no `None` entry survives. `Project.list` sends
its `cursor`/`limit` params mapping with no compaction at all, `None`
values included. -/
theorem c8_compaction_inconsistency (api : NeonAPI)
    (session : HttpRequest → HttpResponse) (project_id : String)
    (shared : Bool) (cursor limit : Option Int)
    (m : List (String × Option Int)) (k : String) (v : Int) :
    (Branch.list api session project_id cursor limit).issued.params
      = compact_mapping [(("cursor"), cursor), (("limit"), limit)] ∧
    List.Sublist (compact_mapping m) m ∧
    ((k, some v) ∈ compact_mapping m ↔ (k, some v) ∈ m) ∧
    ((k, (none : Option Int)) ∉ compact_mapping m) ∧
    (Project.list api session shared cursor limit).issued.params
      = [(("cursor"), cursor), (("limit"), limit)] := by
  refine ⟨rfl, List.filter_sublist m, ?_, ?_, ?_⟩
  · simp [compact_mapping, List.mem_filter]
  · simp [compact_mapping, List.mem_filter]
  · cases shared <;> rfl

/-- C8 witness: with `cursor = None` and `limit = 0`, `Branch.list` sends
only `limit=0` (`None` dropped, falsy `0` kept) while `Project.list` sends
both entries, the `None`-valued `cursor` included. -/
theorem c8_witness :
    (Branch.list ⟨"K", "B/"⟩ (fun _ => ⟨200, "", .null⟩) ("p") none
        (some 0)).issued.params
      = compact_mapping [(("cursor"), (none : Option Int)),
          (("limit"), some 0)] ∧
    List.Sublist
      (compact_mapping [(("cursor"), (none : Option Int)),
        (("limit"), some 0)])
      [(("cursor"), (none : Option Int)), (("limit"), some 0)] ∧
    ((("limit"), some (0 : Int))
        ∈ compact_mapping [(("cursor"), (none : Option Int)),
            (("limit"), some 0)] ↔
      (("limit"), some (0 : Int))
        ∈ [(("cursor"), (none : Option Int)), (("limit"), some 0)]) ∧
    ((("limit"), (none : Option Int))
        ∉ compact_mapping [(("cursor"), (none : Option Int)),
            (("limit"), some 0)]) ∧
    (Project.list ⟨"K", "B/"⟩ (fun _ => ⟨200, "", .null⟩) false none
        (some 0)).issued.params
      = [(("cursor"), (none : Option Int)), (("limit"), some 0)] :=
  c8_compaction_inconsistency ⟨"K", "B/"⟩ (fun _ => ⟨200, "", .null⟩)
    ("p") false none (some 0)
    [(("cursor"), (none : Option Int)), (("limit"), some 0)] ("limit") 0

/-- C3: every successful list operation returns one proxy per element of
the corresponding decoded array — the top-level array for `APIKey.list`,
the `projects` array for `Project.list`, the `branches` array for
`Branch.list` — with equal length and matching order: the i-th proxy wraps
(stores as its raw `_data`) the i-th array element. -/
theorem c3_list_operations (api : NeonAPI)
    (session : HttpRequest → HttpResponse) (project_id : String)
    (shared : Bool) (cursor limit : Option Int)
    (xs ys zs : List Json) (pf bf : List (String × Json))
    (iA iP iB : Nat)
    (hiA : iA < xs.length)
    (hlA : iA < (xs.map (fun x =>
      NeonResource.make api x schema.ApiKeysListResponseItem)).length)
    (hiP : iP < ys.length)
    (hlP : iP < (ys.map (fun x =>
      NeonResource.make api x schema.ProjectListItem)).length)
    (hiB : iB < zs.length)
    (hlB : iB < (zs.map (fun x =>
      NeonResource.make api x schema.ProjectListItem)).length)
    (hA : handleResponse (session ((APIKey.list api session).issued))
      = .ok (.arr xs))
    (hP1 : handleResponse
        (session ((Project.list api session shared cursor limit).issued))
      = .ok (.obj pf))
    (hP2 : lookupField pf ("projects") = some (.arr ys))
    (hB1 : handleResponse
        (session ((Branch.list api session project_id cursor limit).issued))
      = .ok (.obj bf))
    (hB2 : lookupField bf ("branches") = some (.arr zs)) :
    ((APIKey.list api session).result
        = .ok (xs.map (fun x =>
            NeonResource.make api x schema.ApiKeysListResponseItem)) ∧
      (xs.map (fun x =>
          NeonResource.make api x schema.ApiKeysListResponseItem)).length
        = xs.length ∧
      ((xs.map (fun x =>
          NeonResource.make api x schema.ApiKeysListResponseItem)).get
            ⟨iA, hlA⟩)._data
        = xs.get ⟨iA, hiA⟩) ∧
    ((Project.list api session shared cursor limit).result
        = .ok (ys.map (fun x =>
            NeonResource.make api x schema.ProjectListItem)) ∧
      (ys.map (fun x =>
          NeonResource.make api x schema.ProjectListItem)).length
        = ys.length ∧
      ((ys.map (fun x =>
          NeonResource.make api x schema.ProjectListItem)).get
            ⟨iP, hlP⟩)._data
        = ys.get ⟨iP, hiP⟩) ∧
    ((Branch.list api session project_id cursor limit).result
        = .ok (zs.map (fun x =>
            NeonResource.make api x schema.ProjectListItem)) ∧
      (zs.map (fun x =>
          NeonResource.make api x schema.ProjectListItem)).length
        = zs.length ∧
      ((zs.map (fun x =>
          NeonResource.make api x schema.ProjectListItem)).get
            ⟨iB, hlB⟩)._data
        = zs.get ⟨iB, hiB⟩) := by
  refine ⟨⟨?_, List.length_map _ _, ?_⟩, ⟨?_, List.length_map _ _, ?_⟩,
    ⟨?_, List.length_map _ _, ?_⟩⟩
  · simp only [APIKey.list, NeonAPI.request] at hA ⊢
    rw [hA]
  · simp [List.get_eq_getElem, List.getElem_map, NeonResource.make]
  · simp only [Project.list, NeonAPI.request] at hP1 ⊢
    rw [hP1]
    simp [hP2]
  · simp [List.get_eq_getElem, List.getElem_map, NeonResource.make]
  · simp only [Branch.list, NeonAPI.request] at hB1 ⊢
    rw [hB1]
    simp [hB2]
  · simp [List.get_eq_getElem, List.getElem_map, NeonResource.make]

/-- C3 witness: against the fixture session — `api_keys` answering a
two-element array, `projects` a one-element `projects` array, `branches` a
two-element `branches` array — each list operation returns exactly the
corresponding proxies, with matching lengths and matching elements. -/
theorem c3_witness :
    ((APIKey.list ⟨"K", "B/"⟩ listSession).result
        = .ok ([Json.num 10, Json.num 11].map (fun x =>
            NeonResource.make ⟨"K", "B/"⟩ x schema.ApiKeysListResponseItem)) ∧
      ([Json.num 10, Json.num 11].map (fun x =>
          NeonResource.make ⟨"K", "B/"⟩ x
            schema.ApiKeysListResponseItem)).length
        = [Json.num 10, Json.num 11].length ∧
      (([Json.num 10, Json.num 11].map (fun x =>
          NeonResource.make ⟨"K", "B/"⟩ x
            schema.ApiKeysListResponseItem)).get ⟨1, by decide⟩)._data
        = [Json.num 10, Json.num 11].get ⟨1, by decide⟩) ∧
    ((Project.list ⟨"K", "B/"⟩ listSession false none none).result
        = .ok ([Json.num 20].map (fun x =>
            NeonResource.make ⟨"K", "B/"⟩ x schema.ProjectListItem)) ∧
      ([Json.num 20].map (fun x =>
          NeonResource.make ⟨"K", "B/"⟩ x schema.ProjectListItem)).length
        = [Json.num 20].length ∧
      (([Json.num 20].map (fun x =>
          NeonResource.make ⟨"K", "B/"⟩ x schema.ProjectListItem)).get
            ⟨0, by decide⟩)._data
        = [Json.num 20].get ⟨0, by decide⟩) ∧
    ((Branch.list ⟨"K", "B/"⟩ listSession ("p") none none).result
        = .ok ([Json.num 30, Json.num 31].map (fun x =>
            NeonResource.make ⟨"K", "B/"⟩ x schema.ProjectListItem)) ∧
      ([Json.num 30, Json.num 31].map (fun x =>
          NeonResource.make ⟨"K", "B/"⟩ x schema.ProjectListItem)).length
        = [Json.num 30, Json.num 31].length ∧
      (([Json.num 30, Json.num 31].map (fun x =>
          NeonResource.make ⟨"K", "B/"⟩ x schema.ProjectListItem)).get
            ⟨1, by decide⟩)._data
        = [Json.num 30, Json.num 31].get ⟨1, by decide⟩) :=
  c3_list_operations ⟨"K", "B/"⟩ listSession ("p") false none none
    [Json.num 10, Json.num 11] [Json.num 20] [Json.num 30, Json.num 31]
    [(("projects"), Json.arr [Json.num 20])]
    [(("branches"), Json.arr [Json.num 30, Json.num 31])]
    1 0 1 (by decide) (by decide) (by decide) (by decide) (by decide)
    (by decide) rfl rfl rfl rfl rfl

/-- C4 counterexample: the claim says that supplying either `endpoints` or
`branch` makes the POST carry a JSON body, but the body condition is Python
truthiness of `obj.endpoints or obj.branch`: supplying `endpoints=[]` — a
supplied, non-`None`, valid value — still issues a POST with no body at
all. -/
theorem c4_counterexample :
    (some ([] : List Json) ≠ (none : Option (List Json))) ∧
    (Branch.create ⟨"K", "B/"⟩ (fun _ => ⟨200, "", .null⟩) ("p")
        (some []) none).issued.jsonBody = none := by
  constructor
  · simp
  · rfl

/-- C4 (amended): `Branch.create` issues a POST with no body at all exactly
when both `endpoints` and `branch` are absent or falsy — `endpoints` is
`None` or the empty list and `branch` is `None`; when either is supplied
truthy (a non-empty `endpoints` list, or a `branch` value), the POST
carries a JSON body holding exactly the fields of the validated
create-request object (`model_dump` of the `BranchCreateRequest`). -/
theorem c4_create_body (api : NeonAPI)
    (session : HttpRequest → HttpResponse) (project_id : String)
    (endpoints : Option (List Json)) (branch : Option Json) :
    (Branch.create api session project_id endpoints branch).issued.method
      = "POST" ∧
    (BranchCreateRequest.hasBody ⟨endpoints, branch⟩ = false ↔
      ((endpoints = none ∨ endpoints = some []) ∧ branch = none)) ∧
    (BranchCreateRequest.hasBody ⟨endpoints, branch⟩ = false →
      (Branch.create api session project_id endpoints branch).issued.jsonBody
        = none) ∧
    (BranchCreateRequest.hasBody ⟨endpoints, branch⟩ = true →
      (Branch.create api session project_id endpoints branch).issued.jsonBody
        = some (BranchCreateRequest.model_dump ⟨endpoints, branch⟩)) := by
  refine ⟨?_, ?_, ?_, ?_⟩
  · simp only [Branch.create, NeonAPI.request, NeonAPI.buildRequest]
    cases h : BranchCreateRequest.hasBody ⟨endpoints, branch⟩ <;> simp [h]
  · unfold BranchCreateRequest.hasBody
    cases endpoints with
    | none => cases branch <;> simp
    | some es => cases es <;> cases branch <;> simp
  · intro h
    simp only [Branch.create, NeonAPI.request, NeonAPI.buildRequest]
    simp [h]
  · intro h
    simp only [Branch.create, NeonAPI.request, NeonAPI.buildRequest]
    simp [h]

/-- C4 witness: supplying a one-element `endpoints` list issues a POST
whose body is exactly the dumped create-request object; the body condition
is decidably characterized at this input. -/
theorem c4_witness :
    (Branch.create ⟨"K", "B/"⟩ (fun _ => ⟨200, "", .null⟩) ("p")
        (some [Json.obj [(("type"), Json.str ("read_write"))]])
        none).issued.method = "POST" ∧
    (BranchCreateRequest.hasBody
        ⟨some [Json.obj [(("type"), Json.str ("read_write"))]], none⟩
        = false ↔
      ((some [Json.obj [(("type"), Json.str ("read_write"))]] = none ∨
          some [Json.obj [(("type"), Json.str ("read_write"))]] = some []) ∧
        (none : Option Json) = none)) ∧
    (BranchCreateRequest.hasBody
        ⟨some [Json.obj [(("type"), Json.str ("read_write"))]], none⟩
        = false →
      (Branch.create ⟨"K", "B/"⟩ (fun _ => ⟨200, "", .null⟩) ("p")
          (some [Json.obj [(("type"), Json.str ("read_write"))]])
          none).issued.jsonBody = none) ∧
    (BranchCreateRequest.hasBody
        ⟨some [Json.obj [(("type"), Json.str ("read_write"))]], none⟩
        = true →
      (Branch.create ⟨"K", "B/"⟩ (fun _ => ⟨200, "", .null⟩) ("p")
          (some [Json.obj [(("type"), Json.str ("read_write"))]])
          none).issued.jsonBody
        = some (BranchCreateRequest.model_dump
            ⟨some [Json.obj [(("type"), Json.str ("read_write"))]], none⟩)) :=
  c4_create_body ⟨"K", "B/"⟩ (fun _ => ⟨200, "", .null⟩) ("p")
    (some [Json.obj [(("type"), Json.str ("read_write"))]]) none

/-- C5: the typed view is computed at most once. A fresh proxy's first
`obj` access constructs the view from the raw mapping via the data model
and memoizes it; any proxy whose cache is populated returns the memoized
view without reconstruction, even when the raw mapping has been replaced
by anything else; a second access on the updated proxy returns the very
same view, so a view field read after materialization equals the read that
materialized it. -/
theorem c5_obj_memoization (c : NeonAPI) (d : List (String × Json))
    (m : DataModel) (r : NeonResource) (o : TypedView) (d2 : Json)
    (k : String) (h : r.cached_obj = some o) :
    (NeonResource.make c (.obj d) m).objAccess
      = some (m.model_construct d,
          { _client := c, _data := .obj d, _data_model := m,
            cached_obj := some (m.model_construct d) }) ∧
    ({ r with _data := d2 }).objAccess = some (o, { r with _data := d2 }) ∧
    ({ _client := c, _data := .obj d, _data_model := m,
        cached_obj := some (m.model_construct d) } : NeonResource).objAccess
      = some (m.model_construct d,
          { _client := c, _data := .obj d, _data_model := m,
            cached_obj := some (m.model_construct d) }) ∧
    (NeonResource.make c (.obj d) m).objAccess.map
        (fun p => TypedView.getattr p.1 k)
      = ({ _client := c, _data := .obj d, _data_model := m,
            cached_obj := some (m.model_construct d) } :
            NeonResource).objAccess.map
          (fun p => TypedView.getattr p.1 k) := by
  refine ⟨rfl, ?_, rfl, rfl⟩
  simp [NeonResource.objAccess, h]

/-- C5 witness: a proxy whose cache holds the view of `\x7b"id": 7\x7d`
keeps answering that view after its raw mapping is replaced by `null`, and
the fresh proxy's first and second accesses agree on the field `id`. -/
theorem c5_witness :
    ((NeonResource.make ⟨"K", "B/"⟩ (.obj [(("id"), Json.num 7)])
        ⟨[("id")]⟩).objAccess
      = some ((⟨[("id")]⟩ : DataModel).model_construct [(("id"), Json.num 7)],
          { _client := ⟨"K", "B/"⟩, _data := .obj [(("id"), Json.num 7)],
            _data_model := ⟨[("id")]⟩,
            cached_obj := some ((⟨[("id")]⟩ : DataModel).model_construct
              [(("id"), Json.num 7)]) })) ∧
    ({ (⟨⟨"K", "B/"⟩, .obj [(("id"), Json.num 7)], ⟨[("id")]⟩,
          some ((⟨[("id")]⟩ : DataModel).model_construct
            [(("id"), Json.num 7)])⟩ : NeonResource) with
        _data := Json.null }).objAccess
      = some ((⟨[("id")]⟩ : DataModel).model_construct [(("id"), Json.num 7)],
          { (⟨⟨"K", "B/"⟩, .obj [(("id"), Json.num 7)], ⟨[("id")]⟩,
              some ((⟨[("id")]⟩ : DataModel).model_construct
                [(("id"), Json.num 7)])⟩ : NeonResource) with
            _data := Json.null }) ∧
    ({ _client := ⟨"K", "B/"⟩, _data := .obj [(("id"), Json.num 7)],
        _data_model := ⟨[("id")]⟩,
        cached_obj := some ((⟨[("id")]⟩ : DataModel).model_construct
          [(("id"), Json.num 7)]) } : NeonResource).objAccess
      = some ((⟨[("id")]⟩ : DataModel).model_construct [(("id"), Json.num 7)],
          { _client := ⟨"K", "B/"⟩, _data := .obj [(("id"), Json.num 7)],
            _data_model := ⟨[("id")]⟩,
            cached_obj := some ((⟨[("id")]⟩ : DataModel).model_construct
              [(("id"), Json.num 7)]) }) ∧
    (NeonResource.make ⟨"K", "B/"⟩ (.obj [(("id"), Json.num 7)])
        ⟨[("id")]⟩).objAccess.map (fun p => TypedView.getattr p.1 ("id"))
      = ({ _client := ⟨"K", "B/"⟩, _data := .obj [(("id"), Json.num 7)],
            _data_model := ⟨[("id")]⟩,
            cached_obj := some ((⟨[("id")]⟩ : DataModel).model_construct
              [(("id"), Json.num 7)]) } : NeonResource).objAccess.map
          (fun p => TypedView.getattr p.1 ("id")) :=
  c5_obj_memoization ⟨"K", "B/"⟩ [(("id"), Json.num 7)] ⟨[("id")]⟩
    ⟨⟨"K", "B/"⟩, .obj [(("id"), Json.num 7)], ⟨[("id")]⟩,
      some ((⟨[("id")]⟩ : DataModel).model_construct [(("id"), Json.num 7)])⟩
    ((⟨[("id")]⟩ : DataModel).model_construct [(("id"), Json.num 7)])
    Json.null ("id") rfl

/-- C6: `proxy[key]` returns the typed view's attribute of that name when
present and truthy; when the attribute is absent or falsy it falls back to
indexing the typed view as a mapping; and it fails with `KeyError` — a
`PyError`, a different type from the transport's `NeonClientException` —
exactly when the key is absent from both tiers. -/
theorem c6_getitem (r : NeonResource) (key : String) (o : TypedView)
    (r' : NeonResource) (v v2 : Json)
    (hobj : r.objAccess = some (o, r')) :
    (o.getattr key = some v → v.truthy = true →
      r.getitem key = .ok (v, r')) ∧
    (o.getattr key = some v → v.truthy = false →
      o.getitem key = some v2 → r.getitem key = .ok (v2, r')) ∧
    (o.getattr key = some v → v.truthy = false →
      o.getitem key = none → r.getitem key = .error .keyError) ∧
    (o.getattr key = none → o.getitem key = some v2 →
      r.getitem key = .ok (v2, r')) ∧
    (o.getattr key = none → o.getitem key = none →
      r.getitem key = .error .keyError) := by
  refine ⟨?_, ?_, ?_, ?_, ?_⟩
  · intro ha ht
    simp [NeonResource.getitem, hobj, ha, ht]
  · intro ha ht hi
    simp [NeonResource.getitem, hobj, ha, ht, hi]
  · intro ha ht hi
    simp [NeonResource.getitem, hobj, ha, ht, hi]
  · intro ha hi
    simp [NeonResource.getitem, hobj, ha, hi]
  · intro ha hi
    simp [NeonResource.getitem, hobj, ha, hi]

/-- C6 witness: on a proxy over `\x7b"id": 7\x7d` typed with field `id`,
`proxy["id"]` returns the truthy attribute value `7` through the first
tier. -/
theorem c6_witness :
    (((⟨[("id")]⟩ : DataModel).model_construct
        [(("id"), Json.num 7)]).getattr ("id") = some (Json.num 7) →
      (Json.num 7).truthy = true →
      (NeonResource.make ⟨"K", "B/"⟩ (.obj [(("id"), Json.num 7)])
          ⟨[("id")]⟩).getitem ("id")
        = .ok (Json.num 7,
            { _client := ⟨"K", "B/"⟩, _data := .obj [(("id"), Json.num 7)],
              _data_model := ⟨[("id")]⟩,
              cached_obj := some ((⟨[("id")]⟩ : DataModel).model_construct
                [(("id"), Json.num 7)]) })) ∧
    (((⟨[("id")]⟩ : DataModel).model_construct
        [(("id"), Json.num 7)]).getattr ("id") = some (Json.num 7) →
      (Json.num 7).truthy = false →
      ((⟨[("id")]⟩ : DataModel).model_construct
        [(("id"), Json.num 7)]).getitem ("id") = some Json.null →
      (NeonResource.make ⟨"K", "B/"⟩ (.obj [(("id"), Json.num 7)])
          ⟨[("id")]⟩).getitem ("id")
        = .ok (Json.null,
            { _client := ⟨"K", "B/"⟩, _data := .obj [(("id"), Json.num 7)],
              _data_model := ⟨[("id")]⟩,
              cached_obj := some ((⟨[("id")]⟩ : DataModel).model_construct
                [(("id"), Json.num 7)]) })) ∧
    (((⟨[("id")]⟩ : DataModel).model_construct
        [(("id"), Json.num 7)]).getattr ("id") = some (Json.num 7) →
      (Json.num 7).truthy = false →
      ((⟨[("id")]⟩ : DataModel).model_construct
        [(("id"), Json.num 7)]).getitem ("id") = none →
      (NeonResource.make ⟨"K", "B/"⟩ (.obj [(("id"), Json.num 7)])
          ⟨[("id")]⟩).getitem ("id") = .error .keyError) ∧
    (((⟨[("id")]⟩ : DataModel).model_construct
        [(("id"), Json.num 7)]).getattr ("id") = none →
      ((⟨[("id")]⟩ : DataModel).model_construct
        [(("id"), Json.num 7)]).getitem ("id") = some Json.null →
      (NeonResource.make ⟨"K", "B/"⟩ (.obj [(("id"), Json.num 7)])
          ⟨[("id")]⟩).getitem ("id")
        = .ok (Json.null,
            { _client := ⟨"K", "B/"⟩, _data := .obj [(("id"), Json.num 7)],
              _data_model := ⟨[("id")]⟩,
              cached_obj := some ((⟨[("id")]⟩ : DataModel).model_construct
                [(("id"), Json.num 7)]) })) ∧
    (((⟨[("id")]⟩ : DataModel).model_construct
        [(("id"), Json.num 7)]).getattr ("id") = none →
      ((⟨[("id")]⟩ : DataModel).model_construct
        [(("id"), Json.num 7)]).getitem ("id") = none →
      (NeonResource.make ⟨"K", "B/"⟩ (.obj [(("id"), Json.num 7)])
          ⟨[("id")]⟩).getitem ("id") = .error .keyError) :=
  c6_getitem
    (NeonResource.make ⟨"K", "B/"⟩ (.obj [(("id"), Json.num 7)]) ⟨[("id")]⟩)
    ("id")
    ((⟨[("id")]⟩ : DataModel).model_construct [(("id"), Json.num 7)])
    { _client := ⟨"K", "B/"⟩, _data := .obj [(("id"), Json.num 7)],
      _data_model := ⟨[("id")]⟩,
      cached_obj := some ((⟨[("id")]⟩ : DataModel).model_construct
        [(("id"), Json.num 7)]) }
    (Json.num 7) Json.null rfl

/-- C7: attribute lookup on a proxy is a two-tier resolution. The proxy's
own attributes (`_client`, `_data`, `_data_model` and the `obj` property)
resolve first, from the proxy itself; a name defined on neither the proxy
nor the typed view raises `AttributeError`; a name not defined on the proxy
but defined on the typed view resolves to the view's attribute. -/
theorem c7_getattr (r : NeonResource) (name : String) (o : TypedView)
    (r' : NeonResource) (j : Json)
    (hown : ¬ name ∈ NeonResource.ownNames)
    (hobj : r.objAccess = some (o, r')) :
    r.getattr ("_client") = .ok (.client r._client, r) ∧
    r.getattr ("_data") = .ok (.rawData r._data, r) ∧
    r.getattr ("_data_model") = .ok (.dataModel r._data_model, r) ∧
    r.getattr ("obj") = .ok (.typedObj o, r') ∧
    (o.getattr name = some j → r.getattr name = .ok (.viewField j, r')) ∧
    (o.getattr name = none → r.getattr name = .error .attributeError) := by
  simp only [NeonResource.ownNames, List.mem_cons, List.not_mem_nil,
    or_false] at hown
  push_neg at hown
  obtain ⟨h1, h2, h3, h4⟩ := hown
  refine ⟨?_, ?_, ?_, ?_, ?_, ?_⟩
  · simp [NeonResource.getattr]
  · simp [NeonResource.getattr]
  · simp [NeonResource.getattr]
  · simp [NeonResource.getattr, hobj]
  · intro hv
    simp [NeonResource.getattr, h1, h2, h3, h4, hobj, hv]
  · intro hv
    simp [NeonResource.getattr, h1, h2, h3, h4, hobj, hv]

/-- C7 witness: on a proxy over `\x7b"id": 7\x7d` typed with field `id`,
the own attributes resolve from the proxy itself, and the name `id` —
defined on neither tier's own side but on the typed view — resolves to the
view's value through the fallback tier. -/
theorem c7_witness :
    (NeonResource.make ⟨"K", "B/"⟩ (.obj [(("id"), Json.num 7)])
        ⟨[("id")]⟩).getattr ("_client")
      = .ok (.client (NeonResource.make ⟨"K", "B/"⟩
          (.obj [(("id"), Json.num 7)]) ⟨[("id")]⟩)._client,
          NeonResource.make ⟨"K", "B/"⟩ (.obj [(("id"), Json.num 7)])
            ⟨[("id")]⟩) ∧
    (NeonResource.make ⟨"K", "B/"⟩ (.obj [(("id"), Json.num 7)])
        ⟨[("id")]⟩).getattr ("_data")
      = .ok (.rawData (NeonResource.make ⟨"K", "B/"⟩
          (.obj [(("id"), Json.num 7)]) ⟨[("id")]⟩)._data,
          NeonResource.make ⟨"K", "B/"⟩ (.obj [(("id"), Json.num 7)])
            ⟨[("id")]⟩) ∧
    (NeonResource.make ⟨"K", "B/"⟩ (.obj [(("id"), Json.num 7)])
        ⟨[("id")]⟩).getattr ("_data_model")
      = .ok (.dataModel (NeonResource.make ⟨"K", "B/"⟩
          (.obj [(("id"), Json.num 7)]) ⟨[("id")]⟩)._data_model,
          NeonResource.make ⟨"K", "B/"⟩ (.obj [(("id"), Json.num 7)])
            ⟨[("id")]⟩) ∧
    (NeonResource.make ⟨"K", "B/"⟩ (.obj [(("id"), Json.num 7)])
        ⟨[("id")]⟩).getattr ("obj")
      = .ok (.typedObj ((⟨[("id")]⟩ : DataModel).model_construct
          [(("id"), Json.num 7)]),
          { _client := ⟨"K", "B/"⟩, _data := .obj [(("id"), Json.num 7)],
            _data_model := ⟨[("id")]⟩,
            cached_obj := some ((⟨[("id")]⟩ : DataModel).model_construct
              [(("id"), Json.num 7)]) }) ∧
    (((⟨[("id")]⟩ : DataModel).model_construct
        [(("id"), Json.num 7)]).getattr ("id") = some (Json.num 7) →
      (NeonResource.make ⟨"K", "B/"⟩ (.obj [(("id"), Json.num 7)])
          ⟨[("id")]⟩).getattr ("id")
        = .ok (.viewField (Json.num 7),
            { _client := ⟨"K", "B/"⟩, _data := .obj [(("id"), Json.num 7)],
              _data_model := ⟨[("id")]⟩,
              cached_obj := some ((⟨[("id")]⟩ : DataModel).model_construct
                [(("id"), Json.num 7)]) })) ∧
    (((⟨[("id")]⟩ : DataModel).model_construct
        [(("id"), Json.num 7)]).getattr ("id") = none →
      (NeonResource.make ⟨"K", "B/"⟩ (.obj [(("id"), Json.num 7)])
          ⟨[("id")]⟩).getattr ("id") = .error .attributeError) :=
  c7_getattr
    (NeonResource.make ⟨"K", "B/"⟩ (.obj [(("id"), Json.num 7)]) ⟨[("id")]⟩)
    ("id")
    ((⟨[("id")]⟩ : DataModel).model_construct [(("id"), Json.num 7)])
    { _client := ⟨"K", "B/"⟩, _data := .obj [(("id"), Json.num 7)],
      _data_model := ⟨[("id")]⟩,
      cached_obj := some ((⟨[("id")]⟩ : DataModel).model_construct
        [(("id"), Json.num 7)]) }
    (Json.num 7) (by decide) rfl

end NeonClient
